import Mathlib

/-!
Verification of the orchestration control loop and upgrade-safety state
machine of the Rook Ceph cluster controller
(`pkg/operator/ceph/cluster/cluster.go`).

The Go source is shallowly embedded: shared mutable state becomes explicit
state passing, calls to external collaborators (Kubernetes API, the mon/mgr/
osd/rbd role packages, the Ceph client) are inputs recording what each call
would return, and the embedded functions record which calls they made.
-/

namespace Rook

/-! ## Ceph versions

`cephver.CephVersion` and its comparators live outside the excerpted file.
Modelled from the spec: a parsed semantic version (major.minor.patch) with a
strict total order and identical/superior/inferior comparisons. -/

/-- Modelled from the spec: a parsed semantic version `major.minor.patch`
(the source type `cephver.CephVersion` with fields Major, Minor, Extra). -/
structure CephVersion where
  Major : Nat
  Minor : Nat
  Extra : Nat
deriving DecidableEq

/-- Modelled from the spec: version identity (all components equal). -/
def IsIdentical (a b : CephVersion) : Bool :=
  a.Major == b.Major && a.Minor == b.Minor && a.Extra == b.Extra

/-- Modelled from the spec: strict lexicographic "greater than" on versions. -/
def IsSuperior (a b : CephVersion) : Bool :=
  (a.Major > b.Major)
    || (a.Major == b.Major && a.Minor > b.Minor)
    || (a.Major == b.Major && a.Minor == b.Minor && a.Extra > b.Extra)

/-- Modelled from the spec: strict lexicographic "less than" on versions. -/
def IsInferior (a b : CephVersion) : Bool :=
  IsSuperior b a

/-- Modelled from the spec: the minimum-version check (`a` is `b` or above). -/
def IsAtLeast (a b : CephVersion) : Bool :=
  IsIdentical a b || IsSuperior a b

/-! ## The orchestration scheduler state machine

The two flags `orchestrationNeeded` / `orchestrationRunning` of the `cluster`
struct, guarded in the source by `orchMux`.  Each lock-protected critical
section is one atomic transition on this state. -/

/-- The `{orchestrationNeeded, orchestrationRunning}` pair of the `cluster`
struct in `cluster.go`. -/
structure OrchState where
  orchestrationNeeded : Bool
  orchestrationRunning : Bool
deriving DecidableEq

/-- `setOrchestrationNeeded` (cluster.go): under the lock, set
`orchestrationNeeded = true`. -/
def setOrchestrationNeeded (s : OrchState) : OrchState :=
  { s with orchestrationNeeded := true }

/-- `unsetOrchestrationStatus` (cluster.go): under the lock, reset
`orchestrationRunning` to false. -/
def unsetOrchestrationStatus (s : OrchState) : OrchState :=
  { s with orchestrationRunning := false }

/-- `checkSetOrchestrationStatus` (cluster.go): under the lock, if an
orchestration is needed and none is running, claim it (clear `needed`, set
`running`) and return true; otherwise return false and leave the state
unchanged. -/
def checkSetOrchestrationStatus (s : OrchState) : Bool × OrchState :=
  if s.orchestrationNeeded = true && s.orchestrationRunning = false then
    (true, { orchestrationNeeded := false, orchestrationRunning := true })
  else
    (false, s)

/-- `n` concurrent `setOrchestrationNeeded` calls landing one after the other
(each one is the whole critical section, so interleavings are sequences). -/
def applyArrivals : Nat → OrchState → OrchState
  | 0, s => s
  | n + 1, s => applyArrivals n (setOrchestrationNeeded s)

/-- The driving loop of `createInstance` (cluster.go): request once up front,
then while `checkSetOrchestrationStatus` claims, run one pass and release.
`sched` gives, for each pass that runs, how many `setOrchestrationNeeded`
calls arrive while that pass is running (passes beyond the list see none).
Fuel makes the recursion structural; `createInstance` supplies enough.
Returns the number of passes executed and the final flag state. -/
def createInstanceLoop : Nat → OrchState → List Nat → Option (Nat × OrchState)
  | 0, _, _ => none
  | fuel + 1, s, sched =>
    match checkSetOrchestrationStatus s with
    | (false, s1) => some (0, s1)
    | (true, s1) =>
      let s2 := applyArrivals (sched.headD 0) s1
      let s3 := unsetOrchestrationStatus s2
      match createInstanceLoop fuel s3 sched.tail with
      | none => none
      | some (k, sF) => some (k + 1, sF)

/-- `createInstance` (cluster.go), restricted to its scheduling skeleton:
`setOrchestrationNeeded` once, then the claim/run/release loop. -/
def createInstance (s : OrchState) (sched : List Nat) : Option (Nat × OrchState) :=
  createInstanceLoop (sched.length + 2) (setOrchestrationNeeded s) sched

/-! ## The upgrade gate

`diffImageSpecAndClusterRunningVersion` and `validateCephVersion`
(cluster.go).  `runningVersions.Overall` is a map keyed by version strings;
we embed it as the list of per-key results of `cephver.ExtractCephVersion`
(`none` = the key did not parse). The external calls made by
`validateCephVersion` (`mon.LoadClusterInfo`, `client.GetAllCephDaemonVersions`,
`client.IsCephHealthy`) are inputs recording what each would return. -/

/-- The cluster identity record (`cephconfig.ClusterInfo` is outside the
excerpted file). Modelled from the spec: cluster unique id plus admin
credential material. -/
structure ClusterInfo where
  FSID : String
  AdminSecret : String
deriving DecidableEq

/-- Modelled from the spec: `ClusterInfo.IsInitialized`, false on a nil
pointer, true once the identity facts are all present. -/
def IsInitialized : Option ClusterInfo → Bool
  | none => false
  | some ci => ci.FSID != "" && ci.AdminSecret != ""

/-- `client.CephDaemonsVersions`: the `Overall` summary, one entry per
distinct reported version string, already run through
`cephver.ExtractCephVersion`. -/
structure CephDaemonsVersions where
  Overall : List (Option CephVersion)
deriving DecidableEq

/-- `diffImageSpecAndClusterRunningVersion` (cluster.go): compare the image
spec version with the cluster's running versions; returns the Go pair
`(differentImages, err)` with `err` embedded as `Option String`. -/
def diffImageSpecAndClusterRunningVersion (imageSpecVersion : CephVersion)
    (runningVersions : CephDaemonsVersions) : Bool × Option String :=
  let numberOfCephVersions := runningVersions.Overall.length
  if numberOfCephVersions == 0 then
    (false, some "no 'overall' section in the ceph versions")
  else if numberOfCephVersions > 1 then
    (true, none)
  else
    match runningVersions.Overall with
    | [v] =>
      match v with
      | none => (false, some "failed to extract ceph version")
      | some clusterRunningVersion =>
        if IsIdentical clusterRunningVersion imageSpecVersion then
          (false, none)
        else if IsSuperior imageSpecVersion clusterRunningVersion then
          (true, none)
        else if IsInferior imageSpecVersion clusterRunningVersion then
          (true, some "downgrading is not supported")
        else
          (false, none)
    | _ => (false, none)

/-- What the external collaborators called by `validateCephVersion` return:
`mon.LoadClusterInfo` (`none` = error / nil info), `client.GetAllCephDaemonVersions`
(`none` = error), and `client.IsCephHealthy`. -/
structure ValidateExternals where
  loadedInfo : Option ClusterInfo
  daemonVersions : Option CephDaemonsVersions
  cephHealthy : Bool

/-- The outcome of `validateCephVersion`: the returned error (`none` = nil),
the `c.isUpgrade` flag after the call, and whether `client.IsCephHealthy`
was invoked. -/
structure ValidateOutcome where
  err : Option String
  isUpgrade : Bool
  healthChecked : Bool
deriving DecidableEq

/-- `validateCephVersion` (cluster.go).  `allowUnsupported` is
`c.Spec.CephVersion.AllowUnsupported`, `isUpgrade0` is `c.isUpgrade` before
the call, `minimum` is `cephver.Minimum` and `supported` the result of
`version.Supported()` (both outside the excerpted file). -/
def validateCephVersion (allowUnsupported isUpgrade0 : Bool)
    (version minimum : CephVersion) (supported : Bool)
    (ext : ValidateExternals) : ValidateOutcome :=
  if !(IsAtLeast version minimum) then
    { err := some "the version does not meet the minimum version",
      isUpgrade := isUpgrade0, healthChecked := false }
  else if !supported && !allowUnsupported then
    { err := some "allowUnsupported must be set to true to run with this version",
      isUpgrade := isUpgrade0, healthChecked := false }
  else if !(IsInitialized ext.loadedInfo) then
    -- cluster not initialized, nothing to validate
    { err := none, isUpgrade := isUpgrade0, healthChecked := false }
  else
    match ext.daemonVersions with
    | none =>
      -- failed to get ceph daemons versions: logged, not an error
      { err := none, isUpgrade := isUpgrade0, healthChecked := false }
    | some runningVersions =>
      match diffImageSpecAndClusterRunningVersion version runningVersions with
      | (_, some _) =>
        -- failed to determine if we should upgrade: logged, proceed anyway
        { err := none, isUpgrade := isUpgrade0, healthChecked := false }
      | (true, none) =>
        if !ext.cephHealthy then
          { err := some "ceph status is not healthy, refusing to upgrade",
            isUpgrade := isUpgrade0, healthChecked := true }
        else
          { err := none, isUpgrade := true, healthChecked := true }
      | (false, none) =>
        { err := none, isUpgrade := isUpgrade0, healthChecked := false }

/-! ## The cluster spec

`cephv1.ClusterSpec` is outside the excerpted file; modelled from the spec
with exactly the fields `cluster.go` reads: target image, data dir, network
mode, per-role placement / annotations / resource preferences, feature
toggles, mirroring and the storage node selection. Leaf values the core only
passes through are opaque (`Nat` / `String`). -/

/-- A storage node entry (`rookv1alpha2.Node`): its name, used as the sort
key by `NodesByName` (embedded as a totally ordered key value), and its
remaining per-node configuration, opaque. -/
structure Node where
  Name : Nat
  Config : Nat
deriving DecidableEq

/-- The storage selection (`rookv1alpha2.StorageScopeSpec`): the node list. -/
structure StorageScopeSpec where
  Nodes : List Node
deriving DecidableEq

/-- `cephv1.CephVersionSpec`: the target image and the unsupported-version
escape hatch. -/
structure CephVersionSpec where
  Image : String
  AllowUnsupported : Bool
deriving DecidableEq

/-- Modelled from the spec: placement preferences keyed by role. -/
structure RolePlacements where
  mgr : Nat
  osd : Nat
  rbdmirror : Nat
deriving DecidableEq

/-- Modelled from the spec: annotations keyed by role. -/
structure RoleAnnotations where
  mgr : Nat
  osd : Nat
  rbdmirror : Nat
deriving DecidableEq

/-- Modelled from the spec: resource preferences keyed by role. -/
structure RoleResources where
  mgr : Nat
  osd : Nat
  rbdmirror : Nat
deriving DecidableEq

/-- `cephv1.ClusterSpec`, restricted to the fields `cluster.go` reads. -/
structure ClusterSpec where
  CephVersion : CephVersionSpec
  DataDirHostPath : String
  Network : Nat
  Placement : RolePlacements
  Annotations : RoleAnnotations
  Resources : RoleResources
  Dashboard : Bool
  Monitoring : Bool
  RBDMirroring : Nat
  Storage : StorageScopeSpec
deriving DecidableEq

/-- Modelled from the spec: `cephv1.GetMgrPlacement`, the mgr role's slot. -/
def GetMgrPlacement (p : RolePlacements) : Nat := p.mgr

/-- Modelled from the spec: `cephv1.GetOSDPlacement`. -/
def GetOSDPlacement (p : RolePlacements) : Nat := p.osd

/-- Modelled from the spec: `cephv1.GetRBDMirrorPlacement`. -/
def GetRBDMirrorPlacement (p : RolePlacements) : Nat := p.rbdmirror

/-- Modelled from the spec: `cephv1.GetMgrAnnotations`. -/
def GetMgrAnnotations (a : RoleAnnotations) : Nat := a.mgr

/-- Modelled from the spec: `cephv1.GetOSDAnnotations`. -/
def GetOSDAnnotations (a : RoleAnnotations) : Nat := a.osd

/-- Modelled from the spec: `cephv1.GetRBDMirrorAnnotations`. -/
def GetRBDMirrorAnnotations (a : RoleAnnotations) : Nat := a.rbdmirror

/-- Modelled from the spec: `cephv1.GetMgrResources`. -/
def GetMgrResources (r : RoleResources) : Nat := r.mgr

/-- Modelled from the spec: `cephv1.GetOSDResources`. -/
def GetOSDResources (r : RoleResources) : Nat := r.osd

/-- Modelled from the spec: `cephv1.GetRBDMirrorResources`. -/
def GetRBDMirrorResources (r : RoleResources) : Nat := r.rbdmirror

/-! ## The spec differ

`clusterChanged` (cluster.go) sorts both node lists in place by node name
(`sort.Sort(rookv1alpha2.NodesByName(...))`, whose `Less` compares `Name`)
and then deep-compares the two specs.  The in-place sort is embedded as
state passing: the result carries the two specs as the caller's slices see
them after the call. -/

/-- The node ordering of `rookv1alpha2.NodesByName`: by `Name`. -/
def nodeNameLE (a b : Node) : Prop := a.Name ≤ b.Name

instance : DecidableRel nodeNameLE := fun a b =>
  inferInstanceAs (Decidable (a.Name ≤ b.Name))

/-- `sort.Sort(rookv1alpha2.NodesByName(nodes))`: sort the node list by name
(embedded as insertion sort; on name-distinct lists every correct sort
agrees). -/
def sortNodesByName (nodes : List Node) : List Node :=
  List.insertionSort nodeNameLE nodes

/-- Replace a spec's node list (helper for stating "equal apart from the
node lists"). -/
def withNodes (s : ClusterSpec) (nodes : List Node) : ClusterSpec :=
  { s with Storage := { s.Storage with Nodes := nodes } }

/-- `cmp.Diff`, an external observability aid whose text the core never
inspects; embedded as an opaque marker. -/
def cmpDiff (_oldCluster _newCluster : ClusterSpec) : String := "<diff>"

/-- What a call to `clusterChanged` produces: the Go return pair, plus the
two argument specs as the caller's aliased node slices see them afterwards. -/
structure ClusterChangedResult where
  changed : Bool
  diff : String
  oldAfter : ClusterSpec
  newAfter : ClusterSpec
deriving DecidableEq

/-- `clusterChanged` (cluster.go): sort both node lists by name, then report
a change iff the specs are not deeply equal (the diff text is best-effort). -/
def clusterChanged (oldCluster newCluster : ClusterSpec) : ClusterChangedResult :=
  let oldC := withNodes oldCluster (sortNodesByName oldCluster.Storage.Nodes)
  let newC := withNodes newCluster (sortNodesByName newCluster.Storage.Nodes)
  if oldC ≠ newC then
    { changed := true, diff := cmpDiff oldC newC, oldAfter := oldC, newAfter := newC }
  else
    { changed := false, diff := "", oldAfter := oldC, newAfter := newC }

/-! ## The role sequencer

`doOrchestration` (cluster.go).  The external role packages are inputs: the
`OrchEffects` record gives what each collaborator call would return were it
made, and the trace records which calls were made and with which arguments.
Note which spec each argument is drawn from: `spec` is the snapshot passed
in by `createInstance`, `c.Spec` is the live pointer on the cluster struct. -/

/-- Result of `Clientset.CoreV1().ConfigMaps(ns).Create` for the override
configmap: created, already exists (treated as success), or another error. -/
inductive ConfigMapCreateResult where
  | created
  | alreadyExists
  | failed (msg : String)
deriving DecidableEq

/-- What each external call of `doOrchestration` would return were it made. -/
structure OrchEffects where
  createConfigMap : ConfigMapCreateResult
  monsStart : Except String ClusterInfo
  mgrStart : Option String
  osdsStart : Option String
  rbdStart : Option String

/-- The mutable cluster-struct fields `doOrchestration` touches, plus the
live `c.Spec` pointer and the registered child-controller count. -/
structure ClusterState where
  Info : Option ClusterInfo
  Spec : ClusterSpec
  initCompleted : Bool
  isUpgrade : Bool
  childCount : Nat
deriving DecidableEq

/-- The arguments of `c.mons.Start(c.Info, rookImage, cephVersion, *c.Spec,
c.isUpgrade)`. -/
structure MonsStartArgs where
  info : Option ClusterInfo
  rookImage : String
  cephVersion : CephVersion
  spec : ClusterSpec
  isUpgrade : Bool
deriving DecidableEq

/-- The configuration `mgr.New` is built with (cluster.go lines 247-249). -/
structure MgrConfig where
  cephVersionSpec : CephVersionSpec
  placement : Nat
  annotations : Nat
  network : Nat
  dashboard : Bool
  monitoring : Bool
  resources : Nat
  dataDirHostPath : String
  isUpgrade : Bool
deriving DecidableEq

/-- The configuration `osd.New` is built with (cluster.go lines 256-258). -/
structure OsdConfig where
  cephVersionSpec : CephVersionSpec
  storage : StorageScopeSpec
  dataDirHostPath : String
  placement : Nat
  annotations : Nat
  network : Nat
  resources : Nat
  isUpgrade : Bool
deriving DecidableEq

/-- The configuration `rbd.New` is built with (cluster.go lines 265-267). -/
structure RbdConfig where
  cephVersionSpec : CephVersionSpec
  placement : Nat
  annotations : Nat
  network : Nat
  rbdMirroring : Nat
  resources : Nat
  dataDirHostPath : String
  isUpgrade : Bool
deriving DecidableEq

/-- One `ParentClusterChanged(*c.Spec, clusterInfo, c.isUpgrade)` delivery. -/
structure ChildNotifyArgs where
  spec : ClusterSpec
  info : ClusterInfo
  isUpgrade : Bool
deriving DecidableEq

/-- The observable outcome of one `doOrchestration` call: the returned error
(`none` = nil), which role starts were invoked and with which configuration,
the cluster-struct state afterwards, and the child notifications made. -/
structure OrchTrace where
  result : Option String
  monsArgs : Option MonsStartArgs
  mgrConfig : Option MgrConfig
  osdConfig : Option OsdConfig
  rbdConfig : Option RbdConfig
  finalState : ClusterState
  notified : List ChildNotifyArgs
deriving DecidableEq

/-- `doOrchestration` (cluster.go): override configmap, then mons (identity),
then the identity invariant check, then mgr, osds, rbd mirrors, then mark
`initCompleted` and notify the child controllers. -/
def doOrchestration (c : ClusterState) (rookImage : String)
    (cephVersion : CephVersion) (spec : ClusterSpec)
    (eff : OrchEffects) : OrchTrace :=
  match eff.createConfigMap with
  | .failed msg =>
    { result := some ("failed to create override configmap. " ++ msg),
      monsArgs := none, mgrConfig := none, osdConfig := none, rbdConfig := none,
      finalState := c, notified := [] }
  | _ =>
    -- created or already exists: proceed
    let monsArgs : MonsStartArgs :=
      { info := c.Info, rookImage := rookImage, cephVersion := cephVersion,
        spec := c.Spec, isUpgrade := c.isUpgrade }
    match eff.monsStart with
    | .error e =>
      { result := some ("failed to start the mons. " ++ e),
        monsArgs := some monsArgs, mgrConfig := none, osdConfig := none,
        rbdConfig := none, finalState := c, notified := [] }
    | .ok clusterInfo =>
      let c1 : ClusterState := { c with Info := some clusterInfo }
      if !(IsInitialized (some clusterInfo)) then
        { result := some "the cluster identity was not established",
          monsArgs := some monsArgs, mgrConfig := none, osdConfig := none,
          rbdConfig := none, finalState := c1, notified := [] }
      else
        let mgrConfig : MgrConfig :=
          { cephVersionSpec := spec.CephVersion,
            placement := GetMgrPlacement spec.Placement,
            annotations := GetMgrAnnotations c.Spec.Annotations,
            network := spec.Network, dashboard := spec.Dashboard,
            monitoring := spec.Monitoring,
            resources := GetMgrResources spec.Resources,
            dataDirHostPath := c.Spec.DataDirHostPath,
            isUpgrade := c.isUpgrade }
        match eff.mgrStart with
        | some e =>
          { result := some ("failed to start the ceph mgr. " ++ e),
            monsArgs := some monsArgs, mgrConfig := some mgrConfig,
            osdConfig := none, rbdConfig := none, finalState := c1, notified := [] }
        | none =>
          let osdConfig : OsdConfig :=
            { cephVersionSpec := spec.CephVersion, storage := spec.Storage,
              dataDirHostPath := spec.DataDirHostPath,
              placement := GetOSDPlacement spec.Placement,
              annotations := GetOSDAnnotations spec.Annotations,
              network := spec.Network,
              resources := GetOSDResources spec.Resources,
              isUpgrade := c.isUpgrade }
          match eff.osdsStart with
          | some e =>
            { result := some ("failed to start the osds. " ++ e),
              monsArgs := some monsArgs, mgrConfig := some mgrConfig,
              osdConfig := some osdConfig, rbdConfig := none,
              finalState := c1, notified := [] }
          | none =>
            let rbdConfig : RbdConfig :=
              { cephVersionSpec := spec.CephVersion,
                placement := GetRBDMirrorPlacement spec.Placement,
                annotations := GetRBDMirrorAnnotations spec.Annotations,
                network := spec.Network, rbdMirroring := spec.RBDMirroring,
                resources := GetRBDMirrorResources spec.Resources,
                dataDirHostPath := c.Spec.DataDirHostPath,
                isUpgrade := c.isUpgrade }
            match eff.rbdStart with
            | some e =>
              { result := some ("failed to start the rbd mirrors. " ++ e),
                monsArgs := some monsArgs, mgrConfig := some mgrConfig,
                osdConfig := some osdConfig, rbdConfig := some rbdConfig,
                finalState := c1, notified := [] }
            | none =>
              let c2 : ClusterState := { c1 with initCompleted := true }
              { result := none,
                monsArgs := some monsArgs, mgrConfig := some mgrConfig,
                osdConfig := some osdConfig, rbdConfig := some rbdConfig,
                finalState := c2,
                notified := List.replicate c.childCount
                  { spec := c.Spec, info := clusterInfo, isUpgrade := c.isUpgrade } }

/-! ## Order facts about the node ordering, and shared concrete values -/

instance : IsTotal Node nodeNameLE :=
  ⟨fun a b => Nat.le_total a.Name b.Name⟩

instance : IsTrans Node nodeNameLE :=
  ⟨fun _ _ _ h1 h2 => Nat.le_trans h1 h2⟩

/-- Strict version of the node-name ordering. -/
def nodeNameLT (a b : Node) : Prop := a.Name < b.Name

instance : IsAntisymm Node nodeNameLT :=
  ⟨fun _ _ h1 h2 => absurd (Nat.lt_trans h1 h2) (Nat.lt_irrefl _)⟩

/-- A concrete well-formed cluster spec used by the concrete evaluations. -/
def baseSpec : ClusterSpec :=
  { CephVersion := { Image := "ceph/ceph:v14.2.0", AllowUnsupported := false },
    DataDirHostPath := "/var/lib/rook", Network := 0,
    Placement := ⟨0, 0, 0⟩, Annotations := ⟨0, 0, 0⟩, Resources := ⟨0, 0, 0⟩,
    Dashboard := false, Monitoring := false, RBDMirroring := 0,
    Storage := { Nodes := [] } }

/-- A concrete established cluster identity. -/
def exampleInfo : ClusterInfo := { FSID := "fsid", AdminSecret := "secret" }

/-- Effects where every external call of `doOrchestration` succeeds. -/
def effOk : OrchEffects :=
  { createConfigMap := .created, monsStart := .ok exampleInfo,
    mgrStart := none, osdsStart := none, rbdStart := none }

/-- A snapshot spec distinct from both live specs below. -/
def snapshotSpec : ClusterSpec := { baseSpec with Network := 7 }

/-- A second live spec, differing from `baseSpec` in its data dir. -/
def liveSpecB : ClusterSpec := { baseSpec with DataDirHostPath := "/var/lib/rook2" }

/-- A cluster whose live `Spec` field is `baseSpec`. -/
def csLiveA : ClusterState :=
  { Info := none, Spec := baseSpec, initCompleted := false, isUpgrade := false,
    childCount := 1 }

/-- The same cluster but with live `Spec` mutated to `liveSpecB`. -/
def csLiveB : ClusterState := { csLiveA with Spec := liveSpecB }

/-- Number of leading passes of a schedule during each of which at least one
reconciliation request arrived. -/
def countLeadingPos (sched : List Nat) : Nat :=
  (sched.takeWhile (fun n => n != 0)).length

/-- Effects where the mon start fails and everything else would succeed. -/
def effMonsFail : OrchEffects :=
  { createConfigMap := .created, monsStart := .error "mon quorum timeout",
    mgrStart := none, osdsStart := none, rbdStart := none }

/-- Two nodes sharing one name with different per-node configurations, in the
two possible orders. -/
def specDupA : ClusterSpec := withNodes baseSpec [⟨5, 1⟩, ⟨5, 2⟩]

/-- See `specDupA`: the same two same-named nodes, reversed. -/
def specDupB : ClusterSpec := withNodes baseSpec [⟨5, 2⟩, ⟨5, 1⟩]

/-- Two distinct-named nodes. -/
def specPermA : ClusterSpec := withNodes baseSpec [⟨1, 10⟩, ⟨2, 20⟩]

/-- See `specPermA`: the same distinct-named nodes, reversed. -/
def specPermB : ClusterSpec := withNodes baseSpec [⟨2, 20⟩, ⟨1, 10⟩]

/-- A spec whose node list is not sorted by name. -/
def specUnsorted : ClusterSpec := withNodes baseSpec [⟨2, 0⟩, ⟨1, 0⟩]

/-! ## Theorems: the orchestration scheduler -/

/-- **C2** — `checkSetOrchestrationStatus` (TryClaim) returns true iff
`orchestrationNeeded` is set and `orchestrationRunning` is not; in that case
it atomically clears `needed` and sets `running`, in every other state it
leaves both flags unchanged; and a second claim straight after a successful
one always fails, so at most one claimant holds `running` at a time. -/
theorem checkSetOrchestrationStatus_claim_spec :
    (∀ s : OrchState, (checkSetOrchestrationStatus s).1 = true ↔
      (s.orchestrationNeeded = true ∧ s.orchestrationRunning = false))
    ∧ (∀ s : OrchState, (checkSetOrchestrationStatus s).1 = true →
      (checkSetOrchestrationStatus s).2 =
        { orchestrationNeeded := false, orchestrationRunning := true })
    ∧ (∀ s : OrchState, (checkSetOrchestrationStatus s).1 = false →
      (checkSetOrchestrationStatus s).2 = s)
    ∧ (∀ s : OrchState, (checkSetOrchestrationStatus s).1 = true →
      (checkSetOrchestrationStatus (checkSetOrchestrationStatus s).2).1 = false) := by
  refine ⟨?_, ?_, ?_, ?_⟩ <;> intro s <;> obtain ⟨n, r⟩ := s <;>
    cases n <;> cases r <;> decide

/-- Witness for C2: in the claimable state the claim succeeds, and an
immediately following claim fails. -/
theorem checkSetOrchestrationStatus_claim_spec_witness :
    (checkSetOrchestrationStatus ⟨true, false⟩).1 = true
    ∧ (checkSetOrchestrationStatus (checkSetOrchestrationStatus ⟨true, false⟩).2).1 = false :=
  ⟨(checkSetOrchestrationStatus_claim_spec.1 ⟨true, false⟩).mpr ⟨rfl, rfl⟩,
   checkSetOrchestrationStatus_claim_spec.2.2.2 ⟨true, false⟩
     ((checkSetOrchestrationStatus_claim_spec.1 ⟨true, false⟩).mpr ⟨rfl, rfl⟩)⟩

/-- Any positive number of request arrivals just sets the `needed` flag. -/
theorem applyArrivals_succ : ∀ (n : Nat) (s : OrchState),
    applyArrivals (n + 1) s = ⟨true, s.orchestrationRunning⟩
  | 0, _ => rfl
  | n + 1, s => by
    show applyArrivals (n + 1) (setOrchestrationNeeded s) = _
    rw [applyArrivals_succ n]
    rfl

/-- From the idle state the loop exits at once, with no pass. -/
theorem createInstanceLoop_idle (fuel : Nat) (sched : List Nat) :
    createInstanceLoop (fuel + 1) ⟨false, false⟩ sched = some (0, ⟨false, false⟩) := by
  simp [createInstanceLoop, checkSetOrchestrationStatus]

/-- From the claimable state, the loop drains: one pass, plus one more pass
for every leading pass during which at least one request arrived. -/
theorem createInstanceLoop_drains : ∀ sched : List Nat,
    createInstanceLoop (sched.length + 2) ⟨true, false⟩ sched =
      some (1 + countLeadingPos sched, ⟨false, false⟩)
  | [] => rfl
  | a :: rest => by
    have IH := createInstanceLoop_drains rest
    show createInstanceLoop (rest.length + 2 + 1) ⟨true, false⟩ (a :: rest) =
      some (1 + countLeadingPos (a :: rest), ⟨false, false⟩)
    have hstep : createInstanceLoop (rest.length + 2 + 1) ⟨true, false⟩ (a :: rest) =
        (match createInstanceLoop (rest.length + 2)
            (unsetOrchestrationStatus (applyArrivals a ⟨false, true⟩)) rest with
          | none => none
          | some (k, sF) => some (k + 1, sF)) := rfl
    rw [hstep]
    cases a with
    | zero =>
      have hinner : createInstanceLoop (rest.length + 2) ⟨false, false⟩ rest =
          some (0, ⟨false, false⟩) := createInstanceLoop_idle (rest.length + 1) rest
      rw [show unsetOrchestrationStatus (applyArrivals 0 ⟨false, true⟩) =
        (⟨false, false⟩ : OrchState) from rfl, hinner]
      rfl
    | succ n =>
      have hstate : unsetOrchestrationStatus (applyArrivals (n + 1) ⟨false, true⟩) =
          (⟨true, false⟩ : OrchState) := by
        rw [applyArrivals_succ]
        rfl
      rw [hstate, IH]
      have hcount : countLeadingPos ((n + 1) :: rest) = countLeadingPos rest + 1 := by
        simp [countLeadingPos, List.takeWhile_cons]
      rw [hcount]
      show some (1 + countLeadingPos rest + 1, (⟨false, false⟩ : OrchState)) =
        some (1 + (countLeadingPos rest + 1), ⟨false, false⟩)
      exact congrArg (fun k => some (k, (⟨false, false⟩ : OrchState))) (by omega)

/-- **C1** — starting with no pass running, the `createInstance` driving loop
always terminates having executed exactly `1 + countLeadingPos sched` passes:
one initial pass, plus exactly one additional pass for every pass during
which one or more `setOrchestrationNeeded` requests arrived (any number of
requests during one pass coalesce into a single extra pass), and it stops
only when, after a release, no request is pending (`needed = false` in the
final state). -/
theorem createInstance_coalesces (s : OrchState) (sched : List Nat)
    (hrun : s.orchestrationRunning = false) :
    createInstance s sched =
      some (1 + countLeadingPos sched,
        { orchestrationNeeded := false, orchestrationRunning := false }) := by
  unfold createInstance
  have hset : setOrchestrationNeeded s = ⟨true, false⟩ := by
    obtain ⟨n, r⟩ := s
    cases hrun
    rfl
  rw [hset]
  exact createInstanceLoop_drains sched

/-- Witness for C1: three requests land during the first pass and none during
the second; exactly one extra pass runs (two in total), ending idle. -/
theorem createInstance_coalesces_witness :
    createInstance ⟨false, false⟩ [3, 0] = some (2, ⟨false, false⟩) := by
  rw [createInstance_coalesces ⟨false, false⟩ [3, 0] rfl]
  rfl

/-! ## Theorems: the upgrade gate -/

/-- A strictly greater version is never identical (the order is strict). -/
theorem IsIdentical_eq_false_of_IsSuperior {a b : CephVersion}
    (h : IsSuperior a b = true) : IsIdentical b a = false := by
  rcases a with ⟨am, an, ae⟩
  rcases b with ⟨bm, bn, be⟩
  simp [IsSuperior, IsIdentical] at *
  omega

/-- One running version strictly below the image spec version: the diff
reports an upgrade with no error. -/
theorem diff_upgrade_of_needed {v w : CephVersion} (h : IsSuperior v w = true) :
    diffImageSpecAndClusterRunningVersion v ⟨[some w]⟩ = (true, none) := by
  have hni := IsIdentical_eq_false_of_IsSuperior h
  simp [diffImageSpecAndClusterRunningVersion, hni, h]

/-- More than one running version: the diff reports an upgrade with no
error. -/
theorem diff_upgrade_of_many {v : CephVersion} {rvs : CephDaemonsVersions}
    (h : 1 < rvs.Overall.length) :
    diffImageSpecAndClusterRunningVersion v rvs = (true, none) := by
  have hne : rvs.Overall.length ≠ 0 := by omega
  have h0 : (rvs.Overall.length == 0) = false := by simpa using hne
  simp [diffImageSpecAndClusterRunningVersion, h0, h]

/-- When the pre-gates pass (minimum version met, version supported or
explicitly allowed) and the cluster identity is established and the running
versions were fetched, `validateCephVersion` is decided by the diff. -/
theorem validate_reaches_diff (allowUnsupported isUpgrade0 : Bool)
    (v minimum : CephVersion) (supported : Bool) (ext : ValidateExternals)
    (rvs : CephDaemonsVersions)
    (hmin : IsAtLeast v minimum = true)
    (hsup : (supported || allowUnsupported) = true)
    (hinit : IsInitialized ext.loadedInfo = true)
    (hdv : ext.daemonVersions = some rvs) :
    validateCephVersion allowUnsupported isUpgrade0 v minimum supported ext =
      (match diffImageSpecAndClusterRunningVersion v rvs with
        | (_, some _) => { err := none, isUpgrade := isUpgrade0, healthChecked := false }
        | (true, none) =>
          if !ext.cephHealthy then
            { err := some "ceph status is not healthy, refusing to upgrade",
              isUpgrade := isUpgrade0, healthChecked := true }
          else { err := none, isUpgrade := true, healthChecked := true }
        | (false, none) => { err := none, isUpgrade := isUpgrade0, healthChecked := false }) := by
  have hs2 : (!supported && !allowUnsupported) = false := by
    cases supported <;> cases allowUnsupported <;> simp_all
  simp [validateCephVersion, hmin, hs2, hinit, hdv]

/-- **C7** — with exactly one running version identical to the desired image
version, the gate reports no upgrade needed (`(false, nil)`) and
`client.IsCephHealthy` is never invoked, and the upgrade flag is unchanged. -/
theorem upgradeGate_identical_skips_health (v minimum : CephVersion)
    (allowUnsupported isUpgrade0 supported healthy : Bool)
    (loaded : Option ClusterInfo) :
    diffImageSpecAndClusterRunningVersion v ⟨[some v]⟩ = (false, none)
    ∧ (validateCephVersion allowUnsupported isUpgrade0 v minimum supported
        ⟨loaded, some ⟨[some v]⟩, healthy⟩).healthChecked = false
    ∧ (validateCephVersion allowUnsupported isUpgrade0 v minimum supported
        ⟨loaded, some ⟨[some v]⟩, healthy⟩).isUpgrade = isUpgrade0 := by
  have hdiff : diffImageSpecAndClusterRunningVersion v ⟨[some v]⟩ = (false, none) := by
    simp [diffImageSpecAndClusterRunningVersion, IsIdentical]
  refine ⟨hdiff, ?_, ?_⟩ <;>
  · dsimp only [validateCephVersion]
    rw [hdiff]
    split_ifs <;> rfl

/-- **C4** — if the gate determines an upgrade is needed (one running version
strictly below the desired one, or several running versions) under an
established identity with the pre-gates passing, then an unhealthy cluster
makes `validateCephVersion` fail, and a healthy one makes it succeed while
marking the pass as an upgrade pass. -/
theorem upgradeGate_health_gates_upgrade (v minimum w : CephVersion)
    (allowUnsupported isUpgrade0 supported healthy : Bool)
    (loaded : Option ClusterInfo) (rvs : CephDaemonsVersions)
    (hmin : IsAtLeast v minimum = true)
    (hsup : (supported || allowUnsupported) = true)
    (hinit : IsInitialized loaded = true)
    (hneed : (rvs = ⟨[some w]⟩ ∧ IsSuperior v w = true) ∨ 1 < rvs.Overall.length) :
    (healthy = false →
      (validateCephVersion allowUnsupported isUpgrade0 v minimum supported
        ⟨loaded, some rvs, healthy⟩).err.isSome = true)
    ∧ (healthy = true →
      validateCephVersion allowUnsupported isUpgrade0 v minimum supported
        ⟨loaded, some rvs, healthy⟩ =
        { err := none, isUpgrade := true, healthChecked := true }) := by
  have hdiff : diffImageSpecAndClusterRunningVersion v rvs = (true, none) := by
    rcases hneed with ⟨rfl, hsupv⟩ | hmany
    · exact diff_upgrade_of_needed hsupv
    · exact diff_upgrade_of_many hmany
  have hval := validate_reaches_diff allowUnsupported isUpgrade0 v minimum supported
    ⟨loaded, some rvs, healthy⟩ rvs hmin hsup hinit rfl
  rw [hdiff] at hval
  constructor
  · intro hh
    subst hh
    rw [hval]
    rfl
  · intro hh
    subst hh
    rw [hval]
    rfl

/-- Witness for C4: desired 14.2.0 over a single running 13.2.2 on a healthy
cluster: the pass proceeds, marked as an upgrade pass. -/
theorem upgradeGate_health_gates_upgrade_witness :
    validateCephVersion false false ⟨14, 2, 0⟩ ⟨12, 2, 0⟩ true
      ⟨some exampleInfo, some ⟨[some ⟨13, 2, 2⟩]⟩, true⟩ =
      { err := none, isUpgrade := true, healthChecked := true } :=
  (upgradeGate_health_gates_upgrade ⟨14, 2, 0⟩ ⟨12, 2, 0⟩ ⟨13, 2, 2⟩ false false true true
    (some exampleInfo) ⟨[some ⟨13, 2, 2⟩]⟩ (by decide) rfl (by decide)
    (Or.inl ⟨rfl, by decide⟩)).2 rfl

/-- **C3** — the code at the downgrade input: with a single running version
strictly above the desired one, `diffImageSpecAndClusterRunningVersion` does
return `(true, non-nil downgrade error)`, but `validateCephVersion` swallows
that error and returns nil even on an unhealthy cluster: the pass is not
aborted, contradicting the documented downgrade rejection. -/
theorem downgrade_error_swallowed_by_validate :
    (diffImageSpecAndClusterRunningVersion ⟨13, 2, 2⟩ ⟨[some ⟨14, 2, 0⟩]⟩).1 = true
    ∧ (diffImageSpecAndClusterRunningVersion ⟨13, 2, 2⟩ ⟨[some ⟨14, 2, 0⟩]⟩).2.isSome = true
    ∧ validateCephVersion true false ⟨13, 2, 2⟩ ⟨12, 2, 0⟩ true
        ⟨some exampleInfo, some ⟨[some ⟨14, 2, 0⟩]⟩, false⟩ =
        { err := none, isUpgrade := false, healthChecked := false } :=
  ⟨rfl, rfl, rfl⟩

/-- **C6 counterexample** — with an empty `Overall` summary under an
established identity, `validateCephVersion` returns nil, not the
version-unavailable error the claim asserts. -/
theorem emptyOverall_validate_returns_nil :
    (diffImageSpecAndClusterRunningVersion ⟨14, 2, 0⟩ ⟨[]⟩).2.isSome = true
    ∧ validateCephVersion false false ⟨14, 2, 0⟩ ⟨12, 2, 0⟩ true
        ⟨some exampleInfo, some ⟨[]⟩, true⟩ =
        { err := none, isUpgrade := false, healthChecked := false } :=
  ⟨rfl, rfl⟩

/-- **C6 (amended)** — with an empty `Overall` summary the diff sub-check does
fail with the version-unavailable error, but `validateCephVersion` logs and
swallows it, returning nil with the upgrade flag unchanged and no health
check: the pass proceeds best-effort. -/
theorem emptyOverall_gate_swallows (v minimum : CephVersion)
    (allowUnsupported isUpgrade0 supported healthy : Bool)
    (loaded : Option ClusterInfo)
    (hmin : IsAtLeast v minimum = true)
    (hsup : (supported || allowUnsupported) = true)
    (hinit : IsInitialized loaded = true) :
    (diffImageSpecAndClusterRunningVersion v ⟨[]⟩).2.isSome = true
    ∧ validateCephVersion allowUnsupported isUpgrade0 v minimum supported
        ⟨loaded, some ⟨[]⟩, healthy⟩ =
        { err := none, isUpgrade := isUpgrade0, healthChecked := false } := by
  have hdiff : diffImageSpecAndClusterRunningVersion v ⟨[]⟩ =
      (false, some "no 'overall' section in the ceph versions") := rfl
  have hval := validate_reaches_diff allowUnsupported isUpgrade0 v minimum supported
    ⟨loaded, some ⟨[]⟩, healthy⟩ ⟨[]⟩ hmin hsup hinit rfl
  rw [hdiff] at hval
  exact ⟨by rw [hdiff]; rfl, by rw [hval]⟩

/-- Witness for the amended C6 at a concrete input. -/
theorem emptyOverall_gate_swallows_witness :
    validateCephVersion false false ⟨14, 2, 0⟩ ⟨12, 2, 0⟩ true
      ⟨some exampleInfo, some ⟨[]⟩, true⟩ =
      { err := none, isUpgrade := false, healthChecked := false } :=
  (emptyOverall_gate_swallows ⟨14, 2, 0⟩ ⟨12, 2, 0⟩ false false true true
    (some exampleInfo) (by decide) rfl (by decide)).2

/-! ## Theorems: the role sequencer -/

/-- **C8** — when the identity-establishing role start (`mons.Start`) fails
(and the pass got past the configmap step so that `mons.Start` is actually
called), `doOrchestration` returns that failure at once: mgr, osds and rbd
mirrors are never started, the cluster state (including `initCompleted`) is
unchanged, and no child controller is notified. -/
theorem doOrchestration_monsFail_aborts (c : ClusterState) (rookImage : String)
    (cephVersion : CephVersion) (spec : ClusterSpec) (eff : OrchEffects) (e : String)
    (hcm : ∀ msg, eff.createConfigMap ≠ ConfigMapCreateResult.failed msg)
    (hmons : eff.monsStart = Except.error e) :
    doOrchestration c rookImage cephVersion spec eff =
      { result := some ("failed to start the mons. " ++ e),
        monsArgs := some { info := c.Info, rookImage := rookImage,
                           cephVersion := cephVersion, spec := c.Spec,
                           isUpgrade := c.isUpgrade },
        mgrConfig := none, osdConfig := none, rbdConfig := none,
        finalState := c, notified := [] } := by
  rcases eff with ⟨cm, mons, mg, os, rb⟩
  dsimp only at hmons hcm
  subst hmons
  cases cm with
  | failed msg => exact absurd rfl (hcm msg)
  | created => rfl
  | alreadyExists => rfl

/-- Witness for C8 at a concrete input: the pass aborts with the mon failure
and an untouched state. -/
theorem doOrchestration_monsFail_aborts_witness :
    doOrchestration csLiveA "rook/rook:v1.0" ⟨14, 2, 0⟩ snapshotSpec effMonsFail =
      { result := some ("failed to start the mons. " ++ "mon quorum timeout"),
        monsArgs := some { info := csLiveA.Info, rookImage := "rook/rook:v1.0",
                           cephVersion := ⟨14, 2, 0⟩, spec := csLiveA.Spec,
                           isUpgrade := csLiveA.isUpgrade },
        mgrConfig := none, osdConfig := none, rbdConfig := none,
        finalState := csLiveA, notified := [] } :=
  doOrchestration_monsFail_aborts csLiveA "rook/rook:v1.0" ⟨14, 2, 0⟩ snapshotSpec
    effMonsFail "mon quorum timeout"
    (fun _ h => ConfigMapCreateResult.noConfusion h) rfl

/-- **C5** — the code at the divergent input: two `doOrchestration` runs with
the same snapshot `spec` argument but different live `c.Spec` values deliver
different specs to `ParentClusterChanged` (each receives the live spec, not
the snapshot) and build different mgr configurations, so the pass is not a
pure function of the snapshot taken at its start. -/
theorem doOrchestration_leaks_live_spec :
    (doOrchestration csLiveA "rook/rook:v1.0" ⟨14, 2, 0⟩ snapshotSpec effOk).notified =
      [{ spec := baseSpec, info := exampleInfo, isUpgrade := false }]
    ∧ (doOrchestration csLiveB "rook/rook:v1.0" ⟨14, 2, 0⟩ snapshotSpec effOk).notified =
      [{ spec := liveSpecB, info := exampleInfo, isUpgrade := false }]
    ∧ baseSpec ≠ liveSpecB
    ∧ baseSpec ≠ snapshotSpec
    ∧ liveSpecB ≠ snapshotSpec
    ∧ (doOrchestration csLiveA "rook/rook:v1.0" ⟨14, 2, 0⟩ snapshotSpec effOk).notified ≠
      (doOrchestration csLiveB "rook/rook:v1.0" ⟨14, 2, 0⟩ snapshotSpec effOk).notified
    ∧ (doOrchestration csLiveA "rook/rook:v1.0" ⟨14, 2, 0⟩ snapshotSpec effOk).mgrConfig ≠
      (doOrchestration csLiveB "rook/rook:v1.0" ⟨14, 2, 0⟩ snapshotSpec effOk).mgrConfig :=
  ⟨rfl, rfl, by decide, by decide, by decide, by decide, by decide⟩

/-! ## Theorems: the spec differ -/

/-- Under the name ordering, a sorted list with pairwise-distinct names is
strictly sorted. -/
theorem sorted_nodeNameLT_of_le_nodup {l : List Node}
    (hs : List.Sorted nodeNameLE l) (hn : (l.map Node.Name).Nodup) :
    List.Sorted nodeNameLT l := by
  have hne : l.Pairwise (fun a b : Node => a.Name ≠ b.Name) :=
    List.pairwise_map.mp hn
  exact List.Pairwise.imp (fun h => lt_of_le_of_ne h.1 h.2) (hs.and hne)

/-- Sorting by name is permutation-invariant on lists with pairwise-distinct
names. -/
theorem sortNodesByName_eq_of_perm {l1 l2 : List Node}
    (hp : l1.Perm l2) (hn : (l1.map Node.Name).Nodup) :
    sortNodesByName l1 = sortNodesByName l2 := by
  have hs1 : List.Sorted nodeNameLE (sortNodesByName l1) :=
    List.sorted_insertionSort nodeNameLE l1
  have hs2 : List.Sorted nodeNameLE (sortNodesByName l2) :=
    List.sorted_insertionSort nodeNameLE l2
  have hp1 : (sortNodesByName l1).Perm l1 := List.perm_insertionSort nodeNameLE l1
  have hp2 : (sortNodesByName l2).Perm l2 := List.perm_insertionSort nodeNameLE l2
  have hn1 : ((sortNodesByName l1).map Node.Name).Nodup :=
    ((hp1.map Node.Name).symm).nodup hn
  have hn2 : ((sortNodesByName l2).map Node.Name).Nodup :=
    ((hp2.map Node.Name).symm).nodup ((hp.map Node.Name).nodup hn)
  exact List.eq_of_perm_of_sorted ((hp1.trans hp).trans hp2.symm)
    (sorted_nodeNameLT_of_le_nodup hs1 hn1)
    (sorted_nodeNameLT_of_le_nodup hs2 hn2)

/-- `clusterChanged` reports a change exactly when the two specs differ after
their node lists are sorted. -/
theorem clusterChanged_changed_iff (o n : ClusterSpec) :
    (clusterChanged o n).changed = true ↔
      withNodes o (sortNodesByName o.Storage.Nodes) ≠
        withNodes n (sortNodesByName n.Storage.Nodes) := by
  simp only [clusterChanged]
  split <;> simp_all

/-- The spec `clusterChanged` hands back as the mutated old argument. -/
theorem clusterChanged_oldAfter (o n : ClusterSpec) :
    (clusterChanged o n).oldAfter = withNodes o (sortNodesByName o.Storage.Nodes) := by
  simp only [clusterChanged]
  split <;> rfl

/-- The spec `clusterChanged` hands back as the mutated new argument. -/
theorem clusterChanged_newAfter (o n : ClusterSpec) :
    (clusterChanged o n).newAfter = withNodes n (sortNodesByName n.Storage.Nodes) := by
  simp only [clusterChanged]
  split <;> rfl

/-- **C9 counterexample** — two specs equal apart from their node lists being
permutations of each other (two nodes share a name but differ in per-node
configuration) on which `clusterChanged` reports `changed = true`: the claim
fails as stated, because the by-name sort cannot reorder same-named nodes. -/
theorem clusterChanged_dup_name_perm_counterexample :
    specDupA.Storage.Nodes.Perm specDupB.Storage.Nodes
    ∧ withNodes specDupA [] = withNodes specDupB []
    ∧ (clusterChanged specDupA specDupB).changed = true :=
  ⟨by decide, by decide, by decide⟩

/-- **C9 (amended)** — for every pair of specs that are equal except that
their node lists are permutations of each other, *with pairwise-distinct node
names*, `clusterChanged` reports no change. -/
theorem clusterChanged_perm_distinct_names (s1 s2 : ClusterSpec)
    (hperm : s1.Storage.Nodes.Perm s2.Storage.Nodes)
    (hnames : (s1.Storage.Nodes.map Node.Name).Nodup)
    (hrest : withNodes s1 [] = withNodes s2 []) :
    (clusterChanged s1 s2).changed = false := by
  have hsort : sortNodesByName s1.Storage.Nodes = sortNodesByName s2.Storage.Nodes :=
    sortNodesByName_eq_of_perm hperm hnames
  have heq : withNodes s1 (sortNodesByName s1.Storage.Nodes) =
      withNodes s2 (sortNodesByName s2.Storage.Nodes) := by
    rw [hsort]
    obtain ⟨c1, d1, n1, p1, a1, r1, db1, m1, rb1, st1⟩ := s1
    obtain ⟨c2, d2, n2, p2, a2, r2, db2, m2, rb2, st2⟩ := s2
    simp only [withNodes, ClusterSpec.mk.injEq] at hrest ⊢
    exact ⟨hrest.1, hrest.2.1, hrest.2.2.1, hrest.2.2.2.1, hrest.2.2.2.2.1,
      hrest.2.2.2.2.2.1, hrest.2.2.2.2.2.2.1, hrest.2.2.2.2.2.2.2.1,
      hrest.2.2.2.2.2.2.2.2.1, trivial⟩
  cases hc : (clusterChanged s1 s2).changed with
  | false => rfl
  | true => exact absurd heq ((clusterChanged_changed_iff s1 s2).mp hc)

/-- Witness for the amended C9: two distinct-named nodes, reversed, give
`changed = false`. -/
theorem clusterChanged_perm_distinct_names_witness :
    (clusterChanged specPermA specPermB).changed = false :=
  clusterChanged_perm_distinct_names specPermA specPermB (by decide) (by decide) (by decide)

/-- **C10** — `clusterChanged` is not side-effect-free on its arguments: as
seen through the callers' aliased node slices, after every call both the old
and the new spec's node lists are left sorted by node name (each a
permutation of what the caller passed in), whether or not a change was
reported; and on an unsorted input the post-call spec really differs from
the pre-call one. -/
theorem clusterChanged_sorts_in_place :
    (∀ o n : ClusterSpec,
      List.Sorted nodeNameLE (clusterChanged o n).oldAfter.Storage.Nodes
      ∧ List.Sorted nodeNameLE (clusterChanged o n).newAfter.Storage.Nodes
      ∧ (clusterChanged o n).oldAfter.Storage.Nodes.Perm o.Storage.Nodes
      ∧ (clusterChanged o n).newAfter.Storage.Nodes.Perm n.Storage.Nodes)
    ∧ (clusterChanged specUnsorted baseSpec).oldAfter ≠ specUnsorted := by
  refine ⟨fun o n => ⟨?_, ?_, ?_, ?_⟩, by decide⟩
  · rw [clusterChanged_oldAfter]
    exact List.sorted_insertionSort nodeNameLE o.Storage.Nodes
  · rw [clusterChanged_newAfter]
    exact List.sorted_insertionSort nodeNameLE n.Storage.Nodes
  · rw [clusterChanged_oldAfter]
    exact List.perm_insertionSort nodeNameLE o.Storage.Nodes
  · rw [clusterChanged_newAfter]
    exact List.perm_insertionSort nodeNameLE n.Storage.Nodes

/-- Witness for C10 at a concrete input: the handed-back old spec's node list
is sorted. -/
theorem clusterChanged_sorts_in_place_witness :
    List.Sorted nodeNameLE (clusterChanged specUnsorted baseSpec).oldAfter.Storage.Nodes :=
  (clusterChanged_sorts_in_place.1 specUnsorted baseSpec).1

end Rook
